import Mathlib

/-!
Verification of the beerest assertion-chain engine
(`beerest/core/expect.py`) against its specification.

The Python code is shallowly embedded: the dynamic (duck-typed) values an
assertion chain manipulates are modelled by the inductive type `Value`
(JSON-decoded data plus the Python constants `None`, `True`, `False`);
Python runtime semantics used by the code (`str()`, `==`, `<`, `in`,
`len()`, truthiness) are modelled by explicit functions; the mutable
`Expect` object becomes the record `ExpectState`, and every method becomes
a function `... → ExpectState → ExpectState × Option PyError`, where the
returned state is the state of the object at the moment the method returns
or raises (so mutations performed before an exception are visible), and
the second component is the exception raised, if any.
-/

/-- A Python value as manipulated by the assertion chain: JSON-decoded
data together with the constants `None`, `True`/`False`.  `null` models
the Python value `None` (which is also what an absent JSON body decodes
to).  Numbers are modelled as integers. -/
inductive Value where
  | null
  | bool (b : Bool)
  | num (n : Int)
  | str (s : String)
  | arr (xs : List Value)
  | obj (kvs : List (String × Value))

/-- Python truthiness (`bool(v)`): `None`, `False`, `0`, `""`, `[]` and
`\x7b\x7d` are falsy, everything else truthy. -/
def Value.isTruthy : Value → Bool
  | .null => false
  | .bool b => b
  | .num n => n != 0
  | .str s => s != ""
  | .arr xs => !xs.isEmpty
  | .obj kvs => !kvs.isEmpty

/-- Python identity test `v is None`. -/
def Value.isNone : Value → Bool
  | .null => true
  | _ => false

mutual

/-- Python equality `==` on modelled values.  Booleans compare equal to
the corresponding integers (`True == 1`), lists compare elementwise,
dicts compare as key-value maps. -/
def pyEq : Value → Value → Bool
  | .null, .null => true
  | .bool a, .bool b => a == b
  | .bool a, .num n => (if a then (1 : Int) else 0) == n
  | .num n, .bool b => n == (if b then (1 : Int) else 0)
  | .num a, .num b => a == b
  | .str a, .str b => a == b
  | .arr a, .arr b => pyEqList a b
  | .obj a, .obj b => a.length == b.length && pyEqObjSub a b && pyEqObjSub b a
  | _, _ => false
termination_by a b => sizeOf a + sizeOf b

/-- Elementwise Python equality of two lists. -/
def pyEqList : List Value → List Value → Bool
  | [], [] => true
  | x :: xs, y :: ys => pyEq x y && pyEqList xs ys
  | _, _ => false
termination_by xs ys => sizeOf xs + sizeOf ys

/-- Every key of the first assoc list maps to an equal value in the
second (one inclusion of Python dict equality). -/
def pyEqObjSub : List (String × Value) → List (String × Value) → Bool
  | [], _ => true
  | (k, v) :: rest, other => pyEqObjLookup k v other && pyEqObjSub rest other
termination_by a b => sizeOf a + sizeOf b

/-- Key `k` is present in the assoc list with a value Python-equal to `v`. -/
def pyEqObjLookup (k : String) (v : Value) : List (String × Value) → Bool
  | [] => false
  | (k2, v2) :: rest => (k == k2 && pyEq v v2) || pyEqObjLookup k v rest
termination_by l => sizeOf v + sizeOf l

end

mutual

/-- Python `repr()` of a modelled value (string quoting is modelled
without escape sequences, which the repository never exercises). -/
def pyRepr : Value → String
  | .null => "None"
  | .bool b => if b then "True" else "False"
  | .num n => toString n
  | .str s => "\x27" ++ s ++ "\x27"
  | .arr xs => "[" ++ pyReprList xs ++ "]"
  | .obj kvs => "\x7b" ++ pyReprObj kvs ++ "\x7d"

/-- Comma-separated `repr` of list elements. -/
def pyReprList : List Value → String
  | [] => ""
  | [x] => pyRepr x
  | x :: xs => pyRepr x ++ ", " ++ pyReprList xs

/-- Comma-separated `repr` of dict items. -/
def pyReprObj : List (String × Value) → String
  | [] => ""
  | [(k, v)] => "\x27" ++ k ++ "\x27: " ++ pyRepr v
  | (k, v) :: kvs => "\x27" ++ k ++ "\x27: " ++ pyRepr v ++ ", " ++ pyReprObj kvs

end

/-- Python `str()` of a modelled value: identical to `repr()` except on
strings, which print unquoted. -/
def pyStr : Value → String
  | .str s => s
  | v => pyRepr v

mutual

/-- Python `<` on modelled values: `none` models the `TypeError` raised
when the operands are not mutually ordered.  Booleans order as their
integer values; lists order lexicographically. -/
def pyLt : Value → Value → Option Bool
  | .num a, .num b => some (decide (a < b))
  | .bool a, .num b => some (decide ((if a then (1 : Int) else 0) < b))
  | .num a, .bool b => some (decide (a < (if b then (1 : Int) else 0)))
  | .bool a, .bool b => some (decide ((if a then (1 : Int) else 0) < (if b then (1 : Int) else 0)))
  | .str a, .str b => some (decide (a < b))
  | .arr a, .arr b => pyLtList a b
  | _, _ => none
termination_by a b => sizeOf a + sizeOf b

/-- Lexicographic `<` on lists, following CPython: skip `==` prefixes,
decide on the first differing pair, shorter prefix is smaller. -/
def pyLtList : List Value → List Value → Option Bool
  | [], [] => some false
  | [], _ :: _ => some true
  | _ :: _, [] => some false
  | x :: xs, y :: ys => if pyEq x y then pyLtList xs ys else pyLt x y
termination_by xs ys => sizeOf xs + sizeOf ys

end

/-- Python `>` on the built-in types involved: `a > b` agrees with `b < a`. -/
def pyGt (a b : Value) : Option Bool :=
  pyLt b a

/-- Python membership `elem in container`: substring test on strings,
elementwise `==` on lists, key membership on dicts.  `none` models the
`TypeError` raised when the container does not support membership (or,
for strings and dicts, when the element has an unsupported type). -/
def pyContains (container elem : Value) : Option Bool :=
  match container, elem with
  | .str s, .str e => some (decide (e.data <:+: s.data))
  | .str _, _ => none
  | .arr xs, e => some (xs.any (fun x => pyEq e x))
  | .obj _, .arr _ => none
  | .obj _, .obj _ => none
  | .obj kvs, e => some (kvs.any (fun kv => pyEq e (.str kv.1)))
  | _, _ => none

/-- Python `len()`: defined on strings, lists and dicts; `none` models
the `TypeError` on values with no size concept. -/
def pyLen : Value → Option Nat
  | .str s => some s.length
  | .arr xs => some xs.length
  | .obj kvs => some kvs.length
  | _ => none

/-- A wall-clock instant as `datetime.now()` produces it, at the
granularity the formatter consumes: hour, minute, second, microsecond.
Operations that construct a `Check` receive the current instant as an
explicit argument, modelling the ambient clock. -/
structure Timestamp where
  hour : Nat
  minute : Nat
  second : Nat
  microsecond : Nat
deriving DecidableEq

/-- Zero-pad a numeral to at least `w` digits, as `strftime` does. -/
def padNum (w : Nat) (n : Nat) : String :=
  let s := toString n
  String.join (List.replicate (w - s.length) "0") ++ s

/-- `timestamp.strftime(percentH:percentM:percentS.percentf)[:-3]`: the
six-digit microsecond field rendered then truncated by three characters,
yielding millisecond precision. -/
def Timestamp.strftimeMs (t : Timestamp) : String :=
  (padNum 2 t.hour ++ ":" ++ padNum 2 t.minute ++ ":" ++ padNum 2 t.second
    ++ "." ++ padNum 6 t.microsecond).dropRight 3

/-- The `Check` dataclass: one predicate evaluation outcome.
`expected` defaults to `None` and `timestamp` to the construction
instant, exactly as in the dataclass declaration. -/
structure Check where
  passed : Bool
  message : String
  actual : Value
  expected : Value := .null
  context : Option String := none
  timestamp : Timestamp

/-- Modelled from the spec: the `Response` accessor produced outside this
core (`beerest/core/response.py` is not part of the verified sources).
It exposes `status_code`, `headers` (key lookup by name), `json_data`
(decoded body, or `None` when absent) and `elapsed_time` (duration in
milliseconds). -/
structure Response where
  status_code : Int
  headers : List (String × String)
  json_data : Value
  elapsed_time : Int

/-- The test-location information the formatter recovers by walking the
call stack (`inspect`): the first enclosing function whose name starts
with `test_`, its source file and current line.  The stack is ambient
runtime state, so it enters the model as an explicit input. -/
structure TestInfo where
  functionName : String
  filename : String
  lineNo : Nat

/-- The `ExpectError` exception data: top-level message, the Check
Records it carries, and the originating response. -/
structure ExpectError where
  message : String
  checks : List Check
  response : Option Response

/-- The divider rule: 100 repetitions of the heavy horizontal bar. -/
def dividerRule : String :=
  String.join (List.replicate 100 "━")

/-- The test-information block rendered when the stack walk found a
test frame. -/
def testInfoText : Option TestInfo → String
  | some info =>
      "Test: " ++ info.functionName ++ "\n" ++ "File: " ++ info.filename
        ++ ":" ++ toString info.lineNo
  | none => ""

/-- The failure block rendered for one failed Check Record. -/
def failureBlock (check : Check) : List String :=
  ["❌ Failure:",
   "   → Type: " ++ check.message,
   "   → Expected: " ++ pyStr check.expected,
   "   → Received: " ++ pyStr check.actual,
   "   → Time: " ++ check.timestamp.strftimeMs,
   ""]

/-- The response-information block, including the body preview truncated
to 150 characters with an ellipsis; the body line appears only when
`json_data` is truthy, matching the guard in the source. -/
def responseBlock : Option Response → List String
  | some r =>
      ["📡 Response Information:",
       "   • Status: " ++ toString r.status_code,
       "   • Time: " ++ toString r.elapsed_time ++ "ms"]
      ++ (if r.json_data.isTruthy then
            let preview := pyStr r.json_data
            let preview := if preview.length > 150 then preview.take 150 ++ "..." else preview
            ["   • Body: " ++ preview]
          else [])
      ++ [""]
  | none => []

/-- `ExpectError.format_message`: assembles the diagnostic report from
the failed Check Records, the response snapshot and the stack-derived
test location.  The ambient call stack is passed in as `stackInfo`. -/
def ExpectError.format_message (e : ExpectError) (stackInfo : Option TestInfo) : String :=
  let failed_checks := e.checks.filter (fun c => !c.passed)
  let test_info := testInfoText stackInfo
  let message_parts :=
    ["\n🔴 TEST ASSERTION FAILED", dividerRule, ""]
    ++ (if test_info != "" then
          ["📋 Test Information:", "   • " ++ test_info, ""]
        else [])
    ++ responseBlock e.response
    ++ (failed_checks.map failureBlock).flatten
    ++ [dividerRule]
  String.intercalate "\n" message_parts

/-- The exceptions the assertion engine can raise: `ValueError` and
`TypeError`/`AttributeError` model the precondition (InvalidState) kind,
`AssertionError` the bare assertion statement, and `expectError` the
Assertion-Failure Signal. -/
inductive PyError where
  | valueError (msg : String)
  | typeError (msg : String)
  | attributeError (msg : String)
  | assertionError (msg : String)
  | expectError (e : ExpectError)

/-- The spec calls `ValueError`, `TypeError` and `AttributeError` the
precondition/state error kind (`InvalidState`), disjoint from the
Assertion-Failure Signal. -/
def PyError.isInvalidState : PyError → Bool
  | .valueError _ => true
  | .typeError _ => true
  | .attributeError _ => true
  | _ => false

/-- The mutable state of an `Expect` instance: the borrowed response,
the accumulated Check Records, the caller-supplied context, the cursor
`_current_value`, and the two declared-but-unused fields. -/
structure ExpectState where
  response : Response
  checks : List Check
  context : Option String
  _current_value : Value
  _current_path : Option String
  _soft_assert : Bool

/-- The result of one `Expect` method call: the state of the object when
the call returns or raises, and the exception raised, if any. -/
abbrev ExpectResult := ExpectState × Option PyError

/-- `Expect.__init__`: fresh chain over a response, cursor `None`,
no checks recorded. -/
def Expect.init (response : Response) (context : Option String := none) : ExpectState :=
  { response := response, checks := [], context := context,
    _current_value := .null, _current_path := none, _soft_assert := false }

namespace Expect

/-- `Expect._add_check`: build a `Check` from the outcome, append it to
the chain, and when it failed raise the Assertion-Failure Signal
carrying that single record and the response. -/
def _add_check (passed : Bool) (message : String) (actual : Value)
    (expected : Value := .null) (now : Timestamp) (s : ExpectState) : ExpectResult :=
  let check : Check :=
    { passed := passed, message := message, actual := actual,
      expected := expected, context := s.context, timestamp := now }
  let s2 := { s with checks := s.checks ++ [check] }
  if passed then (s2, none)
  else (s2, some (.expectError { message := "Assertion failed", checks := [check],
                                 response := some s.response }))

/-- `Expect.equals`: string-normalized equality of cursor and expected;
routes through `_add_check`, then carries an unreachable bare
`AssertionError` branch copied from the source. -/
def equals (expected : Value) (now : Timestamp) (s : ExpectState) : ExpectResult :=
  let passed := pyStr s._current_value == pyStr expected
  match _add_check passed "equality check" s._current_value expected now s with
  | (s2, some err) => (s2, some err)
  | (s2, none) =>
      if !passed then
        (s2, some (.assertionError
          ("Expected " ++ pyStr expected ++ ", but got " ++ pyStr s._current_value)))
      else (s2, none)

/-- `Expect.status`: set cursor to the status code; with an expected
code, run the inline `equals` check. -/
def status (code : Option Int) (now : Timestamp) (s : ExpectState) : ExpectResult :=
  let s2 := { s with _current_value := .num s.response.status_code }
  match code with
  | some c => equals (.num c) now s2
  | none => (s2, none)

/-- `Expect.body`: with a truthy path, guard on a truthy JSON body, then
evaluate the path through the external JSONPath capability `find`
(`none` models any exception from parsing or evaluation, turned into
`ValueError`); cursor is the first match, or `None` when nothing
matches.  With no path (or the empty string, which Python's `if path:`
treats the same), cursor is the decoded body itself, with no guard. -/
def body (find : String → Value → Option (List Value)) (path : Option String)
    (s : ExpectState) : ExpectResult :=
  match path with
  | some p =>
      if p == "" then ({ s with _current_value := s.response.json_data }, none)
      else if !s.response.json_data.isTruthy then
        (s, some (.valueError "Response has no JSON data"))
      else
        match find p s.response.json_data with
        | none => (s, some (.valueError ("Invalid JSONPath: " ++ p)))
        | some ms =>
            ({ s with _current_value := match ms with | [] => .null | v :: _ => v }, none)
  | none => ({ s with _current_value := s.response.json_data }, none)

/-- `Expect.header`: cursor becomes the named header's value, `None`
when absent. -/
def header (name : String) (s : ExpectState) : ExpectResult :=
  ({ s with _current_value :=
      match s.response.headers.lookup name with
      | some v => .str v
      | none => .null }, none)

/-- `Expect.time`: cursor becomes the recorded elapsed time. -/
def time (s : ExpectState) : ExpectResult :=
  ({ s with _current_value := .num s.response.elapsed_time }, none)

/-- `Expect.contains`: membership of `expected` in the cursor; a cursor
that does not support membership raises `TypeError` before any check is
recorded. -/
def contains (expected : Value) (now : Timestamp) (s : ExpectState) : ExpectResult :=
  match pyContains s._current_value expected with
  | none => (s, some (.typeError "argument does not support membership testing"))
  | some passed => _add_check passed "contains check" s._current_value expected now s

/-- `Expect.matches`: anchored regular-expression match of the pattern
against the textual form of the cursor; the regex engine is the external
capability `reMatch`.  (`matches` is reserved in Lean, hence the name.) -/
def matchesPattern (reMatch : String → String → Bool) (pattern : String)
    (now : Timestamp) (s : ExpectState) : ExpectResult :=
  _add_check (reMatch pattern (pyStr s._current_value)) "pattern match"
    s._current_value (.str pattern) now s

/-- `Expect.less_than`: ordering comparison `cursor < value`; mutually
unordered operands raise `TypeError` before any check is recorded. -/
def less_than (value : Value) (now : Timestamp) (s : ExpectState) : ExpectResult :=
  match pyLt s._current_value value with
  | none => (s, some (.typeError "operands are not mutually ordered"))
  | some passed => _add_check passed "less than check" s._current_value value now s

/-- `Expect.greater_than`: ordering comparison `cursor > value`. -/
def greater_than (value : Value) (now : Timestamp) (s : ExpectState) : ExpectResult :=
  match pyGt s._current_value value with
  | none => (s, some (.typeError "operands are not mutually ordered"))
  | some passed => _add_check passed "greater than check" s._current_value value now s

/-- `Expect.has_length`: `len(cursor)` equals the argument; a cursor
with no size concept raises `TypeError` before any check is recorded. -/
def has_length (length : Int) (now : Timestamp) (s : ExpectState) : ExpectResult :=
  match pyLen s._current_value with
  | none => (s, some (.typeError "object has no length"))
  | some l =>
      _add_check ((l : Int) == length) "length check" (.num l) (.num length) now s

/-- `Expect.is_json`: passes exactly when `json_data is not None`; the
recorded actual value is the truthiness `bool(json_data)`. -/
def is_json (now : Timestamp) (s : ExpectState) : ExpectResult :=
  _add_check (!s.response.json_data.isNone) "JSON validation"
    (.bool s.response.json_data.isTruthy) .null now s

/-- The list comprehension in `has_keys`: the requested keys missing
from the cursor, `none` when a membership test raises. -/
def missingKeys (cursor : Value) : List String → Option (List String)
  | [] => some []
  | k :: ks =>
      match pyContains cursor (.str k) with
      | none => none
      | some b => (missingKeys cursor ks).map (fun rest => if b then rest else k :: rest)

/-- Python `set()` of a list of strings, modelled as the list with
duplicates removed (first occurrence kept). -/
def pySet (xs : List String) : List String :=
  xs.foldl (fun acc x => if acc.contains x then acc else acc ++ [x]) []

/-- `Expect.has_keys`: every named key present in the cursor; the
recorded actual/expected are the key sets.  A cursor that is not a
mapping raises before any check is recorded (`TypeError` from the
membership test, or `AttributeError` from `.keys()`). -/
def has_keys (keys : List String) (now : Timestamp) (s : ExpectState) : ExpectResult :=
  match missingKeys s._current_value keys with
  | none => (s, some (.typeError "argument does not support membership testing"))
  | some missing =>
      match s._current_value with
      | .obj kvs =>
          _add_check missing.isEmpty "keys presence check"
            (.arr ((pySet (kvs.map (fun kv => kv.1))).map .str))
            (.arr ((pySet keys).map .str)) now s
      | _ => (s, some (.attributeError "object has no attribute keys"))

/-- `Expect.satisfies`: caller-supplied predicate over the cursor, with
an optional label. -/
def satisfies (predicate : Value → Bool) (message : String := "custom check")
    (now : Timestamp) (s : ExpectState) : ExpectResult :=
  _add_check (predicate s._current_value) message s._current_value .null now s

/-- The result of the external schema-validation capability. -/
structure ValidationResult where
  is_valid : Bool
  error_messages : List String

/-- The `schema` argument of `matches_schema`: an inline schema value or
a string reference resolved by the external loader. -/
inductive SchemaArg where
  | ref (name : String)
  | inline (v : Value)

/-- Python `str()` of the `error_messages` list of strings. -/
def strListRepr (xs : List String) : String :=
  "[" ++ String.intercalate ", " (xs.map (fun x => "\x27" ++ x ++ "\x27")) ++ "]"

/-- `Expect.matches_schema`: resolve a string schema reference through
the external loader, validate the cursor through the external validator,
and record the outcome; the check message embeds the validation errors
when invalid. -/
def matches_schema (validate : Value → Value → ValidationResult)
    (load_schema : String → Value) (schema : SchemaArg)
    (now : Timestamp) (s : ExpectState) : ExpectResult :=
  let sch := match schema with
    | .ref name => load_schema name
    | .inline v => v
  let result := validate s._current_value sch
  _add_check result.is_valid
    ("schema validation: " ++
      (if !result.is_valid then strListRepr result.error_messages else ""))
    s._current_value sch now s

/-- `Expect.has_type`: sugar for `matches_schema` with an inline
single-field type schema. -/
def has_type (validate : Value → Value → ValidationResult)
    (load_schema : String → Value) (expected_type : String)
    (now : Timestamp) (s : ExpectState) : ExpectResult :=
  matches_schema validate load_schema (.inline (.obj [("type", .str expected_type)])) now s

/-- `Expect.has_array_items`: sugar for `matches_schema` with an inline
array schema. -/
def has_array_items (validate : Value → Value → ValidationResult)
    (load_schema : String → Value) (item_schema : Value)
    (now : Timestamp) (s : ExpectState) : ExpectResult :=
  matches_schema validate load_schema
    (.inline (.obj [("type", .str "array"), ("items", item_schema)])) now s

end Expect

/-- True when the method call raised a bare `AssertionError`. -/
def raisesAssertionError (r : ExpectResult) : Bool :=
  match r.2 with
  | some (.assertionError _) => true
  | _ => false

/-- True when the method call either returned normally or raised the
Assertion-Failure Signal (`ExpectError`). -/
def returnsOrSignals (r : ExpectResult) : Bool :=
  match r.2 with
  | none => true
  | some (.expectError _) => true
  | _ => false

/-- Fixture: a fixed clock instant (12:34:56.789000). -/
def ts0 : Timestamp := ⟨12, 34, 56, 789000⟩

/-- Fixture: a response with no JSON body (`json_data = None`). -/
def respNoJson : Response :=
  { status_code := 200, headers := [], json_data := .null, elapsed_time := 5 }

/-- Fixture: a response whose decoded JSON body is present but empty
(the falsy dict). -/
def respEmptyObj : Response :=
  { status_code := 200, headers := [], json_data := .obj [], elapsed_time := 5 }

/-- Fixture: a response with a truthy JSON body. -/
def respUser : Response :=
  { status_code := 200, headers := [], json_data := .obj [("a", .num 1)], elapsed_time := 5 }

/-- Fixture: a JSONPath capability for a well-formed expression that
matches nothing (parse succeeds, zero matches). -/
def findNoMatch : String → Value → Option (List Value) := fun _ _ => some []

/-- Fixture: a chain whose cursor is the number 200. -/
def chain200 : ExpectState :=
  { Expect.init respNoJson with _current_value := .num 200 }

/-- Fixture: a chain whose cursor is the number 5 (no size concept, no
membership, not ordered against strings). -/
def chainNum5 : ExpectState :=
  { Expect.init respNoJson with _current_value := .num 5 }

/-- Fixture: an Assertion-Failure Signal carrying one failed record. -/
def errSample : ExpectError :=
  { message := "Assertion failed",
    checks := [⟨false, "equality check", .num 404, .num 200, none, ts0⟩],
    response := some respUser }

theorem addCheck_fst (passed : Bool) (m : String) (a e : Value) (now : Timestamp)
    (s : ExpectState) :
    (Expect._add_check passed m a e now s).1 =
      { s with checks := s.checks ++ [⟨passed, m, a, e, s.context, now⟩] } := by
  cases passed <;> rfl

theorem addCheck_preserves_response (passed : Bool) (m : String) (a e : Value)
    (now : Timestamp) (s : ExpectState) :
    (Expect._add_check passed m a e now s).1.response = s.response := by
  cases passed <;> rfl

/-- Claim C1, counterexample: on a response with no JSON data,
`body()` with no path raises nothing and silently sets the cursor to
the absent body (`None`) — the claimed `ValueError` does not occur. -/
theorem claim_C1_counterexample :
    (Expect.body findNoMatch none (Expect.init respNoJson)).2 = none ∧
    (Expect.body findNoMatch none (Expect.init respNoJson)).1._current_value = Value.null :=
  ⟨rfl, rfl⟩

/-- Claim C1 (amended): `body()` with no path never raises, whatever the
response: it sets the cursor to the decoded JSON body, which is `None`
when the response carries no JSON; the missing-JSON `ValueError` guard
exists only in the with-path branch. -/
theorem claim_C1_amended_no_path_never_raises :
    ∀ (find : String → Value → Option (List Value)) (s : ExpectState),
      Expect.body find none s = ({ s with _current_value := s.response.json_data }, none) :=
  fun _ _ => rfl

/-- Claim C4: whenever a predicate outcome is false, `_add_check` (the
single funnel every predicate operation routes through) appends the
failing Check Record — with the actual/expected values the predicate was
evaluated with — to the chain, whatever records the chain already holds,
and raises an Assertion-Failure Signal carrying exactly that one record
together with the response. -/
theorem claim_C4_failing_check_signal :
    ∀ (s : ExpectState) (message : String) (actual expected : Value) (now : Timestamp),
      Expect._add_check false message actual expected now s =
        ({ s with checks := s.checks ++ [⟨false, message, actual, expected, s.context, now⟩] },
         some (.expectError
           { message := "Assertion failed",
             checks := [⟨false, message, actual, expected, s.context, now⟩],
             response := some s.response })) :=
  fun _ _ _ _ _ => rfl

/-- Claim C9: `equals` never raises a bare `AssertionError`: for every
cursor and expected value it either returns normally or raises the
Assertion-Failure Signal from within `_add_check`, so the trailing
`raise AssertionError` branch is unreachable. -/
theorem claim_C9_equals_never_assertion_error :
    ∀ (s : ExpectState) (b : Value) (now : Timestamp),
      raisesAssertionError (Expect.equals b now s) = false ∧
      returnsOrSignals (Expect.equals b now s) = true := by
  intro s b now
  unfold Expect.equals Expect._add_check
  cases h : pyStr s._current_value == pyStr b <;>
    simp [h, raisesAssertionError, returnsOrSignals]

/-- Claim C10: on a response whose decoded JSON body is falsy (absent,
or present but empty like the empty dict), `body(path)` with a nonempty
path raises `ValueError "Response has no JSON data"` no matter what the
path evaluation would return, while `body()` with no path raises nothing
and just sets the cursor to that falsy body. -/
theorem claim_C10_falsy_body_guard
    (find : String → Value → Option (List Value)) (p : String) (s : ExpectState)
    (hp : p ≠ "") (hfalsy : s.response.json_data.isTruthy = false) :
    Expect.body find (some p) s = (s, some (.valueError "Response has no JSON data")) ∧
    Expect.body find none s = ({ s with _current_value := s.response.json_data }, none) := by
  refine ⟨?_, rfl⟩
  unfold Expect.body
  simp [hp, hfalsy]

/-- Claim C10, witness at a concrete input: the no-JSON response with
path `$.a` versus no path. -/
theorem claim_C10_witness :
    Expect.body findNoMatch (some "$.a") (Expect.init respNoJson) =
      (Expect.init respNoJson, some (.valueError "Response has no JSON data")) ∧
    Expect.body findNoMatch none (Expect.init respNoJson) =
      ({ Expect.init respNoJson with
          _current_value := (Expect.init respNoJson).response.json_data }, none) :=
  claim_C10_falsy_body_guard findNoMatch "$.a" (Expect.init respNoJson)
    (by decide) rfl

/-- Claim C2: `equals` passes — appends a passing Check Record and
raises nothing — exactly when the textual representations of cursor and
argument coincide, whatever their underlying types; otherwise it appends
the failing record and raises the Assertion-Failure Signal.  The second
conjunct is the numeric-status example: cursor `200` passes against the
string `"200"`. -/
theorem claim_C2_equals_string_normalized :
    (∀ (s : ExpectState) (b : Value) (now : Timestamp),
      Expect.equals b now s =
        if pyStr s._current_value = pyStr b then
          ({ s with checks := s.checks ++
              [⟨true, "equality check", s._current_value, b, s.context, now⟩] }, none)
        else
          ({ s with checks := s.checks ++
              [⟨false, "equality check", s._current_value, b, s.context, now⟩] },
           some (.expectError
             { message := "Assertion failed",
               checks := [⟨false, "equality check", s._current_value, b, s.context, now⟩],
               response := some s.response }))) ∧
    (Expect.equals (Value.str "200") ts0 chain200).2 = none := by
  constructor
  · intro s b now
    unfold Expect.equals Expect._add_check
    by_cases h : pyStr s._current_value = pyStr b <;> simp [h]
  · rfl

/-- Claim C3, counterexample: on a response whose decoded JSON body is
the present-but-empty dict, `is_json` passes (no error, a passing record
whose recorded actual value is `False`), although the claim says it must
fail on an empty, falsy body. -/
theorem claim_C3_counterexample :
    (Expect.is_json ts0 (Expect.init respEmptyObj)).2 = none ∧
    (Expect.is_json ts0 (Expect.init respEmptyObj)).1.checks =
      [⟨true, "JSON validation", Value.bool false, Value.null, none, ts0⟩] :=
  ⟨rfl, rfl⟩

/-- Claim C3 (amended): `is_json` passes exactly when the decoded JSON
body is present (not `None`), regardless of emptiness or truthiness; the
recorded actual value is the truthiness of the body. -/
theorem claim_C3_amended_is_json_presence :
    ∀ (s : ExpectState) (now : Timestamp),
      Expect.is_json now s =
        if s.response.json_data.isNone then
          ({ s with checks := s.checks ++
              [⟨false, "JSON validation", .bool s.response.json_data.isTruthy, .null, s.context, now⟩] },
           some (.expectError
             { message := "Assertion failed",
               checks := [⟨false, "JSON validation", .bool s.response.json_data.isTruthy, .null, s.context, now⟩],
               response := some s.response }))
        else
          ({ s with checks := s.checks ++
              [⟨true, "JSON validation", .bool s.response.json_data.isTruthy, .null, s.context, now⟩] },
           none) := by
  intro s now
  unfold Expect.is_json Expect._add_check
  cases h : s.response.json_data.isNone <;> simp [h]

/-- Claim C5, counterexample: a response whose JSON body is present but
empty (the falsy dict) together with a well-formed path matching nothing
raises `ValueError` instead of setting the cursor to absent — the claim
fails for present-but-falsy bodies. -/
theorem claim_C5_counterexample :
    Expect.body findNoMatch (some "$.a") (Expect.init respEmptyObj) =
      (Expect.init respEmptyObj, some (.valueError "Response has no JSON data")) :=
  rfl

/-- Claim C5 (amended): for every response whose decoded JSON body is
truthy (present and non-empty) and every well-formed nonempty path
matching nothing, `body(path)` sets the cursor to `None` without
raising, and a subsequent `equals(None)` passes. -/
theorem claim_C5_amended_no_match_sets_none
    (find : String → Value → Option (List Value)) (p : String) (s : ExpectState)
    (now : Timestamp) (hp : p ≠ "")
    (htruthy : s.response.json_data.isTruthy = true)
    (hnomatch : find p s.response.json_data = some []) :
    Expect.body find (some p) s = ({ s with _current_value := Value.null }, none) ∧
    Expect.equals Value.null now { s with _current_value := Value.null } =
      ({ s with
          _current_value := Value.null,
          checks := s.checks ++ [⟨true, "equality check", Value.null, Value.null, s.context, now⟩] },
       none) := by
  constructor
  · unfold Expect.body
    simp [hp, htruthy, hnomatch]
  · unfold Expect.equals Expect._add_check
    simp [pyStr, pyRepr]

/-- Claim C5, witness: body `\x7b"a": 1\x7d`, path `$.b` matching
nothing, then `equals(None)`. -/
theorem claim_C5_witness :
    Expect.body findNoMatch (some "$.b") (Expect.init respUser) =
      ({ Expect.init respUser with _current_value := Value.null }, none) ∧
    Expect.equals Value.null ts0 { Expect.init respUser with _current_value := Value.null } =
      ({ Expect.init respUser with
          _current_value := Value.null,
          checks := (Expect.init respUser).checks ++ [⟨true, "equality check", Value.null, Value.null, (Expect.init respUser).context, ts0⟩] },
       none) :=
  claim_C5_amended_no_match_sets_none findNoMatch "$.b" (Expect.init respUser) ts0
    (by decide) rfl rfl

/-- Claim C6: when the cursor violates a predicate's shape precondition
— no size concept for `has_length`, no membership support for
`contains`, not mutually ordered with the argument for
`less_than`/`greater_than` — the operation raises the precondition
(InvalidState) error kind, distinct from the Assertion-Failure Signal,
and the chain's Check Record sequence is left unchanged (the returned
state is exactly the input state). -/
theorem claim_C6_shape_precondition_invalid_state :
    (∀ (s : ExpectState) (n : Int) (now : Timestamp),
       pyLen s._current_value = none →
       Expect.has_length n now s = (s, some (.typeError "object has no length"))) ∧
    (∀ (s : ExpectState) (e : Value) (now : Timestamp),
       pyContains s._current_value e = none →
       Expect.contains e now s =
         (s, some (.typeError "argument does not support membership testing"))) ∧
    (∀ (s : ExpectState) (v : Value) (now : Timestamp),
       pyLt s._current_value v = none →
       Expect.less_than v now s =
         (s, some (.typeError "operands are not mutually ordered"))) ∧
    (∀ (s : ExpectState) (v : Value) (now : Timestamp),
       pyGt s._current_value v = none →
       Expect.greater_than v now s =
         (s, some (.typeError "operands are not mutually ordered"))) ∧
    (∀ (msg : String), PyError.isInvalidState (.typeError msg) = true) := by
  refine ⟨?_, ?_, ?_, ?_, ?_⟩
  · intro s n now h; unfold Expect.has_length; simp [h]
  · intro s e now h; unfold Expect.contains; simp [h]
  · intro s v now h; unfold Expect.less_than; simp [h]
  · intro s v now h; unfold Expect.greater_than; simp [h]
  · intro msg; rfl

/-- Claim C6, witness: the numeric cursor `5` has no size concept, no
membership support, and does not order against a string. -/
theorem claim_C6_witness :
    Expect.has_length 3 ts0 chainNum5 =
      (chainNum5, some (.typeError "object has no length")) ∧
    Expect.contains (Value.num 1) ts0 chainNum5 =
      (chainNum5, some (.typeError "argument does not support membership testing")) ∧
    Expect.less_than (Value.str "x") ts0 chainNum5 =
      (chainNum5, some (.typeError "operands are not mutually ordered")) ∧
    Expect.greater_than (Value.str "x") ts0 chainNum5 =
      (chainNum5, some (.typeError "operands are not mutually ordered")) ∧
    PyError.isInvalidState (.typeError "object has no length") = true :=
  ⟨claim_C6_shape_precondition_invalid_state.1 chainNum5 3 ts0 rfl,
   claim_C6_shape_precondition_invalid_state.2.1 chainNum5 (Value.num 1) ts0 rfl,
   claim_C6_shape_precondition_invalid_state.2.2.1 chainNum5 (Value.str "x") ts0
     (by simp [chainNum5, Expect.init, pyLt]),
   claim_C6_shape_precondition_invalid_state.2.2.2.1 chainNum5 (Value.str "x") ts0
     (by simp [chainNum5, Expect.init, pyGt, pyLt]),
   claim_C6_shape_precondition_invalid_state.2.2.2.2 "object has no length"⟩

/-- Claim C7: the diagnostic formatter is deterministic — two calls of
`format_message` on equal inputs (the Check Records with their baked-in
timestamps, the response, and the stack-derived test location) yield
byte-identical report text. -/
theorem claim_C7_formatter_deterministic :
    ∀ (e1 e2 : ExpectError) (i1 i2 : Option TestInfo),
      e1 = e2 → i1 = i2 →
      ExpectError.format_message e1 i1 = ExpectError.format_message e2 i2 := by
  intro e1 e2 i1 i2 h1 h2
  rw [h1, h2]

/-- Claim C7, witness: the sample signal formatted twice. -/
theorem claim_C7_witness :
    ExpectError.format_message errSample none = ExpectError.format_message errSample none :=
  claim_C7_formatter_deterministic errSample errSample none none rfl rfl

theorem equals_preserves_response (b : Value) (now : Timestamp) (s : ExpectState) :
    (Expect.equals b now s).1.response = s.response := by
  unfold Expect.equals
  cases h : pyStr s._current_value == pyStr b <;> simp [h, Expect._add_check]

theorem status_preserves_response (code : Option Int) (now : Timestamp) (s : ExpectState) :
    (Expect.status code now s).1.response = s.response := by
  cases code with
  | none => rfl
  | some c =>
      exact equals_preserves_response (.num c) now
        { s with _current_value := .num s.response.status_code }

theorem body_preserves_response (find : String → Value → Option (List Value))
    (path : Option String) (s : ExpectState) :
    (Expect.body find path s).1.response = s.response := by
  unfold Expect.body
  rcases path with _ | p
  · rfl
  · dsimp only
    split
    · rfl
    · split
      · rfl
      · cases find p s.response.json_data with
        | none => rfl
        | some ms => rfl

theorem header_preserves_response (name : String) (s : ExpectState) :
    (Expect.header name s).1.response = s.response := rfl

theorem time_preserves_response (s : ExpectState) :
    (Expect.time s).1.response = s.response := rfl

theorem contains_preserves_response (e : Value) (now : Timestamp) (s : ExpectState) :
    (Expect.contains e now s).1.response = s.response := by
  unfold Expect.contains
  cases h : pyContains s._current_value e with
  | none => rfl
  | some passed => exact addCheck_preserves_response passed "contains check" s._current_value e now s

theorem matchesPattern_preserves_response (reMatch : String → String → Bool)
    (pattern : String) (now : Timestamp) (s : ExpectState) :
    (Expect.matchesPattern reMatch pattern now s).1.response = s.response :=
  addCheck_preserves_response _ _ _ _ _ _

theorem less_than_preserves_response (v : Value) (now : Timestamp) (s : ExpectState) :
    (Expect.less_than v now s).1.response = s.response := by
  unfold Expect.less_than
  cases h : pyLt s._current_value v with
  | none => rfl
  | some passed => exact addCheck_preserves_response passed "less than check" s._current_value v now s

theorem greater_than_preserves_response (v : Value) (now : Timestamp) (s : ExpectState) :
    (Expect.greater_than v now s).1.response = s.response := by
  unfold Expect.greater_than
  cases h : pyGt s._current_value v with
  | none => rfl
  | some passed => exact addCheck_preserves_response passed "greater than check" s._current_value v now s

theorem has_length_preserves_response (n : Int) (now : Timestamp) (s : ExpectState) :
    (Expect.has_length n now s).1.response = s.response := by
  unfold Expect.has_length
  cases h : pyLen s._current_value with
  | none => rfl
  | some l => exact addCheck_preserves_response _ _ _ _ _ _

theorem is_json_preserves_response (now : Timestamp) (s : ExpectState) :
    (Expect.is_json now s).1.response = s.response :=
  addCheck_preserves_response _ _ _ _ _ _

theorem has_keys_preserves_response (keys : List String) (now : Timestamp) (s : ExpectState) :
    (Expect.has_keys keys now s).1.response = s.response := by
  unfold Expect.has_keys
  cases h : Expect.missingKeys s._current_value keys with
  | none => rfl
  | some missing =>
      cases h2 : s._current_value <;>
        first
          | rfl
          | exact addCheck_preserves_response _ _ _ _ _ _

theorem satisfies_preserves_response (pred : Value → Bool) (msg : String)
    (now : Timestamp) (s : ExpectState) :
    (Expect.satisfies pred msg now s).1.response = s.response :=
  addCheck_preserves_response _ _ _ _ _ _

theorem matches_schema_preserves_response (validate : Value → Value → Expect.ValidationResult)
    (load_schema : String → Value) (schema : Expect.SchemaArg)
    (now : Timestamp) (s : ExpectState) :
    (Expect.matches_schema validate load_schema schema now s).1.response = s.response :=
  addCheck_preserves_response _ _ _ _ _ _

theorem has_type_preserves_response (validate : Value → Value → Expect.ValidationResult)
    (load_schema : String → Value) (expected_type : String)
    (now : Timestamp) (s : ExpectState) :
    (Expect.has_type validate load_schema expected_type now s).1.response = s.response :=
  matches_schema_preserves_response validate load_schema
    (.inline (.obj [("type", .str expected_type)])) now s

theorem has_array_items_preserves_response (validate : Value → Value → Expect.ValidationResult)
    (load_schema : String → Value) (item_schema : Value)
    (now : Timestamp) (s : ExpectState) :
    (Expect.has_array_items validate load_schema item_schema now s).1.response = s.response :=
  matches_schema_preserves_response validate load_schema
    (.inline (.obj [("type", .str "array"), ("items", item_schema)])) now s

/-- Claim C8: no navigation or predicate operation of the chain ever
mutates the response it holds: after every operation, on every starting
state — whether the call returns or raises — the state's response is the
one it started with. -/
theorem claim_C8_response_never_mutated :
    (∀ (code : Option Int) (now : Timestamp) (s : ExpectState),
       (Expect.status code now s).1.response = s.response) ∧
    (∀ (find : String → Value → Option (List Value)) (path : Option String) (s : ExpectState),
       (Expect.body find path s).1.response = s.response) ∧
    (∀ (name : String) (s : ExpectState),
       (Expect.header name s).1.response = s.response) ∧
    (∀ (s : ExpectState), (Expect.time s).1.response = s.response) ∧
    (∀ (b : Value) (now : Timestamp) (s : ExpectState),
       (Expect.equals b now s).1.response = s.response) ∧
    (∀ (e : Value) (now : Timestamp) (s : ExpectState),
       (Expect.contains e now s).1.response = s.response) ∧
    (∀ (reMatch : String → String → Bool) (pattern : String) (now : Timestamp) (s : ExpectState),
       (Expect.matchesPattern reMatch pattern now s).1.response = s.response) ∧
    (∀ (v : Value) (now : Timestamp) (s : ExpectState),
       (Expect.less_than v now s).1.response = s.response) ∧
    (∀ (v : Value) (now : Timestamp) (s : ExpectState),
       (Expect.greater_than v now s).1.response = s.response) ∧
    (∀ (n : Int) (now : Timestamp) (s : ExpectState),
       (Expect.has_length n now s).1.response = s.response) ∧
    (∀ (now : Timestamp) (s : ExpectState),
       (Expect.is_json now s).1.response = s.response) ∧
    (∀ (keys : List String) (now : Timestamp) (s : ExpectState),
       (Expect.has_keys keys now s).1.response = s.response) ∧
    (∀ (pred : Value → Bool) (msg : String) (now : Timestamp) (s : ExpectState),
       (Expect.satisfies pred msg now s).1.response = s.response) ∧
    (∀ (validate : Value → Value → Expect.ValidationResult) (load_schema : String → Value)
       (schema : Expect.SchemaArg) (now : Timestamp) (s : ExpectState),
       (Expect.matches_schema validate load_schema schema now s).1.response = s.response) ∧
    (∀ (validate : Value → Value → Expect.ValidationResult) (load_schema : String → Value)
       (expected_type : String) (now : Timestamp) (s : ExpectState),
       (Expect.has_type validate load_schema expected_type now s).1.response = s.response) ∧
    (∀ (validate : Value → Value → Expect.ValidationResult) (load_schema : String → Value)
       (item_schema : Value) (now : Timestamp) (s : ExpectState),
       (Expect.has_array_items validate load_schema item_schema now s).1.response = s.response) :=
  ⟨status_preserves_response, body_preserves_response, header_preserves_response,
   time_preserves_response, equals_preserves_response, contains_preserves_response,
   matchesPattern_preserves_response, less_than_preserves_response,
   greater_than_preserves_response, has_length_preserves_response,
   is_json_preserves_response, has_keys_preserves_response,
   satisfies_preserves_response, matches_schema_preserves_response,
   has_type_preserves_response, has_array_items_preserves_response⟩
